import Mathlib

/-!
Verification of the PostHog Flutter Linux plugin core
(event queue, transport, feature flags, session replay)
against its natural-language specification.

The C++ sources are shallowly embedded: each C++ function that a claim
depends on is translated into an executable Lean definition carrying the
same name, and the claims are settled as theorems about those definitions.
Machine integers are modelled as `Int`/`Nat` with explicit wrap-around
where the C++ semantics depends on it (`size_t` subtraction).
-/

namespace PostHogSpec

/-- JSON-shaped values as built by nlohmann::json in the plugin:
null, bool, integer, float (not needed by any claim, so integers
suffice here), string, array, string-keyed object. -/
inductive Json where
  | null : Json
  | bool : Bool → Json
  | num : Int → Json
  | str : String → Json
  | arr : List Json → Json
  | obj : List (String × Json) → Json


/-- Key lookup in a JSON object (association list, first match). -/
def Json.lookup (k : String) : Json → Option Json
  | .obj fields => go fields
  | _ => none
where go : List (String × Json) → Option Json
  | [] => none
  | (k', v) :: rest => if k' = k then some v else go rest

end PostHogSpec

namespace posthog

open PostHogSpec

/-- `posthog::PostHogEvent` (posthog_models.h): a regular capture event.
`timestamp` is the C++ `int64_t` millisecond value. -/
structure PostHogEvent where
  event : String
  distinct_id : String
  timestamp : Int
  properties : Json


/-- `PostHogEvent::to_json` (posthog_models.h lines 21-28): serialises the
event; the timestamp is written with `std::to_string`, i.e. as a decimal
string, and the `event` / `distinct_id` fields are copied verbatim with
no emptiness fallback. -/
def PostHogEvent.to_json (e : PostHogEvent) : Json :=
  .obj [("event", .str e.event),
        ("distinct_id", .str e.distinct_id),
        ("timestamp", .str (toString e.timestamp)),
        ("properties", e.properties)]

/-- `posthog::SessionReplayEvent` (posthog_models.h): a replay `$snapshot`
event. -/
structure SessionReplayEvent where
  event : String
  distinct_id : String
  properties : Json
  timestamp : Int


/-- `SessionReplayEvent::to_json` (posthog_models.h lines 116-126):
empty event names fall back to `"$snapshot"`, empty distinct ids fall
back to `"unknown_user"`, and the timestamp is serialised with
`std::to_string` as a decimal string. -/
def SessionReplayEvent.to_json (e : SessionReplayEvent) : Json :=
  .obj [("event", .str (if e.event = "" then "$snapshot" else e.event)),
        ("distinct_id", .str (if e.distinct_id = "" then "unknown_user" else e.distinct_id)),
        ("properties", e.properties),
        ("timestamp", .str (toString e.timestamp))]

end posthog

namespace StorageManager

/-- A row of the `events` table (storage_manager.cc `CREATE TABLE events`):
`id TEXT PRIMARY KEY, event_json TEXT NOT NULL, created_at INTEGER NOT NULL`.
`created_at` is the epoch-second value bound from `time(nullptr)`. -/
structure EventRow where
  id : String
  event_json : String
  created_at : Int

/-- The `events` table, rows listed in rowid (insertion) order.
The database handle is modelled as open; the `!db_` early-returns in
storage_manager.cc are disposal-time behaviour outside the claims. -/
abbrev EventsTable := List EventRow

/-- `StorageManager::EnqueueEvent` (storage_manager.cc lines 116-135):
`INSERT INTO events (id, event_json, created_at) VALUES (?, ?, ?)` with a
freshly generated UUID and `time(nullptr)`; the generated id and clock
reading are passed in explicitly here. -/
def EnqueueEvent (tbl : EventsTable) (id : String) (event_json : String)
    (now : Int) : EventsTable :=
  tbl ++ [⟨id, event_json, now⟩]

/-- Row order produced by `SELECT id, event_json FROM events ORDER BY
created_at ASC` (storage_manager.cc line 143). The query names no tie-break
column, so rows with equal `created_at` come back in an order SQLite does
not specify; the model returns them in table (insertion) order, which a
full-scan sort produces. -/
def orderByCreatedAt (tbl : EventsTable) : List EventRow :=
  List.insertionSort (fun r s => r.created_at ≤ s.created_at) tbl

/-- The rows selected by `StorageManager::GetQueuedEvents`
(storage_manager.cc lines 137-161): `ORDER BY created_at ASC LIMIT ?`. -/
def GetQueuedEventsRows (tbl : EventsTable) (max_count : Nat) : List EventRow :=
  (orderByCreatedAt tbl).take max_count

/-- The `id|json` concatenation each selected row is returned as
(storage_manager.cc line 155). -/
def encodeRow (r : EventRow) : List Char :=
  r.id.data ++ '|' :: r.event_json.data

/-- `StorageManager::GetQueuedEvents` itself: the selected rows rendered
as `id|json` strings. -/
def GetQueuedEvents (tbl : EventsTable) (max_count : Nat) : List (List Char) :=
  (GetQueuedEventsRows tbl max_count).map encodeRow

/-- `StorageManager::RemoveEvents` (storage_manager.cc lines 163-186):
an empty id list returns `false` without touching the table; otherwise a
single `DELETE FROM events WHERE id IN (...)` removes exactly the rows
whose id is one of the supplied ids. The returned Bool is the C++ return
value (`sqlite3_step == SQLITE_DONE` on the healthy-database path). -/
def RemoveEvents (tbl : EventsTable) (event_ids : List String) :
    Bool × EventsTable :=
  if event_ids.isEmpty then (false, tbl)
  else (true, tbl.filter (fun r => !(decide (r.id ∈ event_ids))))

/-- `StorageManager::GetQueueSize` (storage_manager.cc lines 188-205):
`SELECT COUNT(*) FROM events`. -/
def GetQueueSize (tbl : EventsTable) : Nat :=
  tbl.length

end StorageManager

/-- `HttpResponse` (http_client.h). -/
structure HttpResponse where
  status_code : Int := 0
  body : String := ""
  success : Bool := false

namespace HttpClient

/-- `HttpClient::PerformPost` (http_client.cc lines 65-112), outcome side:
if `curl_easy_perform` returned `CURLE_OK` the response carries the HTTP
status and body and `success = (status >= 200 && status < 300)`; on any
transport error the initial `{success := false, status_code := 0}`
response is returned. -/
def PerformPost (curl_ok : Bool) (status : Int) (body : String) : HttpResponse :=
  if curl_ok then
    { status_code := status, body := body,
      success := decide (200 ≤ status) && decide (status < 300) }
  else
    { status_code := 0, body := "", success := false }

end HttpClient

namespace Plugin

open StorageManager

/-- The split of one drained `id|json` string at its first `'|'`
(posthog_flutter_plugin.cc lines 209-215: `find('|')` then `substr`);
`none` models `find` returning `npos`, in which case the row is skipped. -/
def splitFirstPipe : List Char → Option (List Char × List Char)
  | [] => none
  | c :: rest =>
      if c = '|' then some ([], rest)
      else match splitFirstPipe rest with
           | none => none
           | some (a, b) => some (c :: a, b)

/-- The loop of posthog_flutter_plugin.cc lines 209-215 (and its copies at
lines 617-623 and 828-834): build `event_ids` and `event_jsons` from the
drained strings, skipping any string without a `'|'`. -/
def collectIdsJsons : List (List Char) → List (List Char) × List (List Char)
  | [] => ([], [])
  | e :: rest =>
      let (ids, jsons) := collectIdsJsons rest
      match splitFirstPipe e with
      | some (i, j) => (i :: ids, j :: jsons)
      | none => (ids, jsons)

/-- One flush cycle over the queue, shared by `flush_events_thread`
(posthog_flutter_plugin.cc lines 200-227), the inline flush in
`handle_capture` (lines 613-639) and the `flush` method (lines 824-841):
drain up to `max_batch_size` rows, split them into ids and jsons, and if
any json was recovered POST the batch; the drained ids are removed from
the store iff the response reports success. `resp` is the response the
server would return to the POST. -/
def flushCycle (tbl : EventsTable) (max_batch_size : Nat)
    (resp : HttpResponse) : EventsTable :=
  let events := GetQueuedEvents tbl max_batch_size
  let (ids, jsons) := collectIdsJsons events
  if jsons.isEmpty then tbl
  else if resp.success then (RemoveEvents tbl (ids.map String.mk)).2
  else tbl

end Plugin

namespace CharScan

/-- The `'{'` character (written via its code point to keep brace
characters out of string literals). -/
def lbraceCh : Char := Char.ofNat 123

/-- The `'}'` character. -/
def rbraceCh : Char := Char.ofNat 125

/-- The `'"'` character. -/
def quoteCh : Char := Char.ofNat 34

/-- Whether `needle` is an initial segment of the second list. -/
def startsWith : List Char → List Char → Bool
  | [], _ => true
  | _ :: _, [] => false
  | a :: as, b :: bs => a = b && startsWith as bs

/-- `std::string::find(needle)`: the suffix of the haystack beginning at
the first occurrence of `needle`; `none` models `npos`. -/
def findSub (needle : List Char) (hay : List Char) : Option (List Char) :=
  if startsWith needle hay then some hay
  else
    match hay with
    | [] => none
    | _ :: rest => findSub needle rest

/-- `std::string::find(ch)` combined with the two `substr` calls around
it: the characters before the first `ch` and the suffix after it;
`none` models `npos`. -/
def splitAtChar (ch : Char) : List Char → Option (List Char × List Char)
  | [] => none
  | c :: cs =>
      if c = ch then some ([], cs)
      else match splitAtChar ch cs with
           | none => none
           | some (a, b) => some (c :: a, b)

/-- Space/tab test used by the scanners' whitespace skipping. -/
def isSpTab (c : Char) : Bool := c = ' ' || c = '\t'

/-- `erase(0, find_first_not_of(" \t"))` followed by
`erase(find_last_not_of(" \t") + 1)`: trim spaces and tabs on both ends
(an all-blank value becomes empty, as in the C++). -/
def trimSpTab (l : List Char) : List Char :=
  ((l.dropWhile isSpTab).reverse.dropWhile isSpTab).reverse

/-- The brace-matching scan of `ExtractJsonValue`'s object branch
(feature_flags_manager.cc lines 30-38): consume characters, tracking
depth, until depth returns to zero or the input ends. -/
def takeBalanced : Nat → List Char → List Char
  | _, [] => []
  | depth, c :: cs =>
      let d := if c = lbraceCh then depth + 1
               else if c = rbraceCh then depth - 1 else depth
      c :: (if d = 0 then [] else takeBalanced d cs)

end CharScan

namespace FeatureFlagsManager

open CharScan

/-- `ExtractJsonValue` (feature_flags_manager.cc lines 8-51): locate
`"key"`, skip to the `':'` after it, skip spaces/tabs, then extract a
string value (quotes stripped), a brace-balanced object (braces kept),
or a number/boolean token trimmed of blanks. Any failed `find` returns
the empty value. -/
def ExtractJsonValue (json : List Char) (key : List Char) : List Char :=
  match findSub (quoteCh :: key ++ [quoteCh]) json with
  | none => []
  | some suf =>
    match splitAtChar ':' suf with
    | none => []
    | some (_, afterColon) =>
      match afterColon.dropWhile isSpTab with
      | [] => []
      | c :: cs =>
        if c = quoteCh then
          match splitAtChar quoteCh cs with
          | none => []
          | some (value, _) => value
        else if c = lbraceCh then
          c :: takeBalanced 1 cs
        else
          trimSpTab ((c :: cs).takeWhile (fun ch => !(ch = ',' || ch = rbraceCh || ch = ']')))

/-- The in-memory flag cache `flags_cache_` (a `std::map<string,string>`)
together with the `feature_flags` settings blob the manager persists
through the Store. -/
structure FlagsState where
  flags_cache : List (List Char × List Char)
  stored_flags : List Char

/-- `std::map` insert-or-assign, as performed by `flags_cache_[key] = value`. -/
def mapInsert (m : List (List Char × List Char)) (k v : List Char) :
    List (List Char × List Char) :=
  match m with
  | [] => [(k, v)]
  | (k', v') :: rest => if k' = k then (k, v) :: rest else (k', v') :: mapInsert rest k v

/-- `std::map::find`. -/
def mapFind (m : List (List Char × List Char)) (k : List Char) : Option (List Char) :=
  match m with
  | [] => none
  | (k', v') :: rest => if k' = k then some v' else mapFind rest k

/-- The key/value scanning loop of `ParseFlagsResponse`
(feature_flags_manager.cc lines 77-127), in suffix-passing form: find a
quoted key, the `':'` after it, then a quoted value (quotes stripped) or
a token running to the next `','`/`'}'` (trimmed); store it; continue
after the next `','`. Every iteration moves strictly forward, so a fuel
of the scanned string's length is never exhausted. -/
def parseFlagsLoop (fuel : Nat) (cache : List (List Char × List Char))
    (s : List Char) : List (List Char × List Char) :=
  match fuel with
  | 0 => cache
  | fuel + 1 =>
    match splitAtChar quoteCh s with
    | none => cache
    | some (_, afterOpen) =>
      match splitAtChar quoteCh afterOpen with
      | none => cache
      | some (key, afterKey) =>
        match splitAtChar ':' afterKey with
        | none => cache
        | some (_, afterColon) =>
          match afterColon.dropWhile isSpTab with
          | [] => cache
          | c :: cs =>
            if c = quoteCh then
              match splitAtChar quoteCh cs with
              | none => cache
              | some (value, afterValue) =>
                let cache' := mapInsert cache key value
                match splitAtChar ',' afterValue with
                | none => cache'
                | some (_, next) => parseFlagsLoop fuel cache' next
            else
              let tok := (c :: cs).takeWhile (fun ch => !(ch = ',' || ch = rbraceCh))
              let rest := (c :: cs).dropWhile (fun ch => !(ch = ',' || ch = rbraceCh))
              let cache' := mapInsert cache key (trimSpTab tok)
              match splitAtChar ',' rest with
              | none => cache'
              | some (_, next) => parseFlagsLoop fuel cache' next

/-- `FeatureFlagsManager::ParseFlagsResponse` (feature_flags_manager.cc
lines 66-131): the cache is cleared first (line 67); if the body has no
`featureFlags` value beginning with `'{'` the function returns with the
cache left cleared; otherwise the cache becomes the freshly parsed map
and the raw response is persisted via `SetFeatureFlags`. -/
def ParseFlagsResponse (st : FlagsState) (response_json : List Char) : FlagsState :=
  let flags_json := ExtractJsonValue response_json ("featureFlags".data)
  if flags_json.isEmpty || !(flags_json.head? = some lbraceCh) then
    { st with flags_cache := [] }
  else
    { flags_cache := parseFlagsLoop (flags_json.length + 1) [] (flags_json.drop 1),
      stored_flags := response_json }

/-- `FeatureFlagsManager::ReloadFeatureFlags` (feature_flags_manager.cc
lines 133-143): parse and return `true` only when the decide POST
succeeded with a non-empty body; otherwise return `false` untouched.
`resp` is the response `PostDecide` returned. -/
def ReloadFeatureFlags (st : FlagsState) (resp : HttpResponse) : Bool × FlagsState :=
  if resp.success && !(resp.body = "") then
    (true, ParseFlagsResponse st resp.body.data)
  else
    (false, st)

/-- `FeatureFlagsManager::IsFeatureEnabled` (feature_flags_manager.cc
lines 145-154): enabled iff the cached value is `true`, `1`, or starts
with a quote and is longer than two characters (an indexed read of an
empty `std::string` yields the terminating NUL, which fails the quote
test). -/
def IsFeatureEnabled (st : FlagsState) (flag_key : List Char) : Bool :=
  match mapFind st.flags_cache flag_key with
  | none => false
  | some value =>
      value = "true".data || value = "1".data ||
      (value.head? = some quoteCh && decide (2 < value.length))

end FeatureFlagsManager

namespace PostHogSpec

/-- Escape for string serialisation (quote and backslash; the only
escapes any value produced by the plugin needs). -/
def escapeChar (c : Char) : List Char :=
  if c = CharScan.quoteCh then ['\\', CharScan.quoteCh]
  else if c = '\\' then ['\\', '\\']
  else [c]

mutual

/-- `nlohmann::json::dump()`: compact serialisation of a JSON value, used
where the plugin turns an event into the string stored in the queue. -/
def Json.dump : Json → String
  | .null => "null"
  | .bool b => if b then "true" else "false"
  | .num n => toString n
  | .str s => String.mk (CharScan.quoteCh :: s.data.foldr (fun c acc => escapeChar c ++ acc) [CharScan.quoteCh])
  | .arr xs => "[" ++ String.intercalate "," (Json.dumpList xs) ++ "]"
  | .obj fs =>
      String.mk [CharScan.lbraceCh] ++ String.intercalate "," (Json.dumpObj fs)
        ++ String.mk [CharScan.rbraceCh]

/-- Serialise the elements of a JSON array. -/
def Json.dumpList : List Json → List String
  | [] => []
  | x :: xs => Json.dump x :: Json.dumpList xs

/-- Serialise the fields of a JSON object. -/
def Json.dumpObj : List (String × Json) → List String
  | [] => []
  | (k, v) :: fs => (Json.dump (.str k) ++ ":" ++ Json.dump v) :: Json.dumpObj fs

end

/-- `nlohmann::json` object assignment `j[key] = value`: replace the
value at an existing key, or add the field. (nlohmann keeps object keys
sorted; field order is irrelevant to every claim, so insertion order is
kept here.) -/
def objInsert (fields : List (String × Json)) (k : String) (v : Json) :
    List (String × Json) :=
  match fields with
  | [] => [(k, v)]
  | (k', v') :: rest =>
      if k' = k then (k, v) :: rest else (k', v') :: objInsert rest k v

end PostHogSpec

namespace Plugin

open PostHogSpec StorageManager

/-- The persisted Store state the handlers touch: the events table plus
the settings the plugin reads and writes (`""` models an absent
`distinct_id`/`session_id` row). -/
structure StoreState where
  events : EventsTable
  distinct_id : String
  session_id : String
  super_properties : List (String × String)
  opt_out_setting : Bool

/-- Plugin instance state (struct `_PosthogFlutterPlugin`), restricted to
the fields the claims touch. `storage` is non-optional: the handlers under
test run on an initialized plugin whose `storage_manager`/`http_client`
pointers are non-null, so the disposal-race null checks in the source are
vacuous here. -/
structure PluginState where
  initialized : Bool
  opt_out : Bool
  flush_at : Int
  max_batch_size : Nat
  storage : StoreState

/-- `get_or_create_distinct_id` (posthog_flutter_plugin.cc lines 162-169);
the freshly generated UUID is passed in. -/
def get_or_create_distinct_id (st : StoreState) (fresh_uuid : String) :
    String × StoreState :=
  if st.distinct_id = "" then (fresh_uuid, { st with distinct_id := fresh_uuid })
  else (st.distinct_id, st)

/-- `get_or_create_session_id` (posthog_flutter_plugin.cc lines 171-178). -/
def get_or_create_session_id (st : StoreState) (fresh_uuid : String) :
    String × StoreState :=
  if st.session_id = "" then (fresh_uuid, { st with session_id := fresh_uuid })
  else (st.session_id, st)

/-- The `json::parse` applied to each stored super-property value in
`handle_capture` (lines 526-533). The plugin itself only ever stores
values of the form `"text"` (the register branch, line 803, wraps the
raw value in quotes), and this models exactly that grammar: a quoted
value parses to the JSON string it quotes; anything else takes the
raw-string catch branch. -/
def parseSuperValue (s : String) : Json :=
  match s.data with
  | [] => .str s
  | c :: cs =>
      if c = CharScan.quoteCh ∧ cs.getLast? = some CharScan.quoteCh ∧ 1 ≤ cs.length
      then .str (String.mk cs.dropLast)
      else .str s

/-- `handle_capture` (posthog_flutter_plugin.cc lines 482-641). Inputs
that the C++ obtains from the environment are passed explicitly: the
method-call argument `eventName`; the caller properties that survive the
FlValue bridge (the manually extracted keys of lines 539-567 — the
generic merge of lines 571-580 contributes nothing because
`fl_value_to_json_obj` maps every FlValue map to an empty object); the
clock readings; the UUIDs generated for a missing distinct/session id
and for the queue row; and the response the server would return to an
inline-flush POST. The returned `Nat` counts `PostCapture` calls. -/
def handle_capture (p : PluginState) (eventName : Option String)
    (callerProps : List (String × Json)) (now_ms : Int)
    (fresh_uuid fresh_session row_uuid : String) (row_time : Int)
    (resp : HttpResponse) : PluginState × Nat :=
  if !p.initialized || p.opt_out then (p, 0) else
  match eventName with
  | none => (p, 0)
  | some event_name =>
    let (distinct_id, st1) := get_or_create_distinct_id p.storage fresh_uuid
    let props0 : List (String × Json) :=
      [("$lib", .str "posthog-flutter"), ("$lib_version", .str "5.9.0"),
       ("$device_type", .str "Mobile"), ("$os", .str "Linux"),
       ("$os_version", .str "Unknown"),
       ("$screen_width", .num 1024), ("$screen_height", .num 600)]
    let (session_id, st2) := get_or_create_session_id st1 fresh_session
    let props1 := if session_id = "" then props0
                  else objInsert props0 "$session_id" (.str session_id)
    let props2 := objInsert props1 "$window_id" (.str "main")
    let props3 := st2.super_properties.foldl
      (fun acc kv => objInsert acc kv.1 (parseSuperValue kv.2)) props2
    let props4 := callerProps.foldl (fun acc kv => objInsert acc kv.1 kv.2) props3
    let ev : posthog.PostHogEvent := ⟨event_name, distinct_id, now_ms, .obj props4⟩
    let st3 := { st2 with
      events := EnqueueEvent st2.events row_uuid (Json.dump ev.to_json) row_time }
    let queue_size := GetQueueSize st3.events
    if p.flush_at ≤ (queue_size : Int) then
      let events := GetQueuedEvents st3.events p.max_batch_size
      let (ids, jsons) := collectIdsJsons events
      if jsons.isEmpty then ({ p with storage := st3 }, 0)
      else
        let st4 := if resp.success then
            { st3 with events := (RemoveEvents st3.events (ids.map String.mk)).2 }
          else st3
        ({ p with storage := st4 }, 1)
    else ({ p with storage := st3 }, 0)

/-- `handle_identify` (posthog_flutter_plugin.cc lines 644-677). -/
def handle_identify (p : PluginState) (userId : Option String)
    (now_ms : Int) (fresh_session row_uuid : String) (row_time : Int) :
    PluginState :=
  if !p.initialized || p.opt_out then p else
  match userId with
  | none => p
  | some user_id =>
    let st1 := { p.storage with distinct_id := user_id }
    let (session_id, st2) := get_or_create_session_id st1 fresh_session
    let props1 : List (String × Json) :=
      if session_id = "" then [] else [("$session_id", .str session_id)]
    let props2 := objInsert props1 "$window_id" (.str "main")
    let ev : posthog.PostHogEvent := ⟨"$identify", user_id, now_ms, .obj props2⟩
    { p with storage := { st2 with
        events := EnqueueEvent st2.events row_uuid (Json.dump ev.to_json) row_time } }

/-- `handle_screen` (posthog_flutter_plugin.cc lines 680-721). -/
def handle_screen (p : PluginState) (screenName : Option String)
    (now_ms : Int) (fresh_uuid fresh_session row_uuid : String)
    (row_time : Int) : PluginState :=
  if !p.initialized || p.opt_out then p else
  match screenName with
  | none => p
  | some screen_name =>
    let (distinct_id, st1) := get_or_create_distinct_id p.storage fresh_uuid
    let props0 : List (String × Json) :=
      [("$screen_name", .str screen_name),
       ("$lib", .str "posthog-flutter"), ("$lib_version", .str "5.9.0"),
       ("$device_type", .str "Mobile"), ("$os", .str "Linux"),
       ("$os_version", .str "Unknown"),
       ("$screen_width", .num 1024), ("$screen_height", .num 600)]
    let (session_id, st2) := get_or_create_session_id st1 fresh_session
    let props1 := if session_id = "" then props0
                  else objInsert props0 "$session_id" (.str session_id)
    let props2 := objInsert props1 "$window_id" (.str "main")
    let ev : posthog.PostHogEvent := ⟨"$screen", distinct_id, now_ms, .obj props2⟩
    { p with storage := { st2 with
        events := EnqueueEvent st2.events row_uuid (Json.dump ev.to_json) row_time } }

/-- The `alias` branch of `handle_method_call`
(posthog_flutter_plugin.cc lines 932-956). Unlike capture, identify,
screen, group and captureException, this branch guards only on the
storage pointer being non-null: there is no `initialized`/`opt_out`
check before the `$create_alias` event is enqueued. -/
def handle_alias (p : PluginState) (aliasArg : Option String)
    (now_ms : Int) (fresh_uuid row_uuid : String) (row_time : Int) :
    PluginState :=
  match aliasArg with
  | none => p
  | some new_id =>
    let (old_id, st1) := get_or_create_distinct_id p.storage fresh_uuid
    let ev : posthog.PostHogEvent :=
      ⟨"$create_alias", new_id, now_ms, .obj [("alias", .str old_id)]⟩
    let st2 := { st1 with
      events := EnqueueEvent st1.events row_uuid (Json.dump ev.to_json) row_time }
    { p with storage := { st2 with distinct_id := new_id } }

/-- The `group` branch of `handle_method_call`
(posthog_flutter_plugin.cc lines 957-977). -/
def handle_group (p : PluginState) (groupType groupKey : Option String)
    (now_ms : Int) (fresh_uuid row_uuid : String) (row_time : Int) :
    PluginState :=
  match groupType, groupKey with
  | some gt, some gk =>
    if p.initialized && !p.opt_out then
      let (distinct_id, st1) := get_or_create_distinct_id p.storage fresh_uuid
      let ev : posthog.PostHogEvent := ⟨"$groupidentify", distinct_id, now_ms,
        .obj [("$group_type", .str gt), ("$group_key", .str gk)]⟩
      { p with storage := { st1 with
          events := EnqueueEvent st1.events row_uuid (Json.dump ev.to_json) row_time } }
    else p
  | _, _ => p

end Plugin

namespace SessionReplayManager

/-- The encoding alphabet `base64_chars`
(session_replay_manager.cc lines 25-26). -/
def base64_chars : List Char :=
  "ABCDEFGHIJKLMNOPQRSTUVWXYZabcdefghijklmnopqrstuvwxyz0123456789+/".data

/-- `size_t` subtraction: `a - b` computed modulo `2^64` (both operands
below `2^64`). `data.size() - 2` underflows through this when the vector
holds fewer than two bytes. -/
def sizeTSub (a b : Nat) : Nat := (a + 2 ^ 64 - b) % 2 ^ 64

/-- One output character: `base64_chars[x & 0x3F]` (the masked index is
always below 64, so the default is never taken). -/
def b64Char (x : Nat) : Char := base64_chars.getD (x &&& 63) 'A'

/-- The 3-byte main loop of `Base64Encode`
(session_replay_manager.cc lines 70-76): while `i < data.size() - 2`
(a `size_t` comparison), read `data[i]`, `data[i+1]`, `data[i+2]` and
emit four characters. An out-of-bounds vector read — which the C++
reaches for inputs of size 0 or 1, where the bound has wrapped around —
is undefined behaviour and yields `none`. On normal exit the characters
and the final loop index are returned. The fuel only bounds the
recursion; it exceeds the iteration count on every input (the loop
either leaves `i < data.size()` invariant-bound or dies on its first
out-of-bounds read), so the fuel-exhausted branch is unreachable. -/
def encodeLoopB64 (data : List Nat) (stop : Nat) :
    Nat → Nat → Option (List Char × Nat)
  | 0, _ => none
  | fuel + 1, i =>
    if i < stop then
      match data.get? i, data.get? (i + 1), data.get? (i + 2) with
      | some b0, some b1, some b2 =>
        let b := (b0 <<< 16) ||| (b1 <<< 8) ||| b2
        (match encodeLoopB64 data stop fuel (i + 3) with
         | none => none
         | some (s, fin) =>
             some ([b64Char (b >>> 18), b64Char (b >>> 12),
                    b64Char (b >>> 6), b64Char b] ++ s, fin))
      | _, _, _ => none
    else some ([], i)

/-- `SessionReplayManager::Base64Encode`
(session_replay_manager.cc lines 66-94): the 3-byte loop followed by the
1-or-2-byte padded tail (whose reads are guarded by `i < size` /
`i + 1 < size` and hence in bounds). `none` marks the undefined
behaviour of the loop's out-of-bounds reads on inputs shorter than two
bytes. -/
def Base64Encode (data : List Nat) : Option String :=
  let n := data.length
  let stop := sizeTSub n 2
  match encodeLoopB64 data stop (n + 1) 0 with
  | none => none
  | some (s, i) =>
    if i < n then
      let b0 := data.getD i 0
      let b := if i + 1 < n then (b0 <<< 16) ||| ((data.getD (i + 1) 0) <<< 8)
               else b0 <<< 16
      let tail :=
        [b64Char (b >>> 18), b64Char (b >>> 12)] ++
        (if i + 1 < n then [b64Char (b >>> 6)] else ['=']) ++ ['=']
      some (String.mk (s ++ tail))
    else some (String.mk s)

/-- The replay manager state the flush worker reads
(session_replay_manager.h): the two buffers, the liveness and activity
flags, the tuning knobs (`int` fields kept as `Int`), and whether the
`http_client_` pointer is still valid. Buffer entries are irrelevant to
the trigger, so they are reduced to their counts. -/
structure ReplayState where
  snapshot_count : Nat
  meta_event_count : Nat
  should_flush : Bool
  is_active : Bool
  batch_size : Int
  batch_interval_ms : Int
  http_ok : Bool

/-- The C++ cast `static_cast<size_t>(batch_size_)`: a 64-bit unsigned
reinterpretation, so a negative batch size becomes astronomically
large. -/
def castToSizeT (n : Int) : Nat := (n % (2 ^ 64 : Int)).toNat

/-- The `should_send` computation of one `FlushThread` iteration
(session_replay_manager.cc lines 421-425): send when the snapshot buffer
has reached `batch_size_` (as a `size_t` comparison), or when the batch
interval elapsed and the snapshot buffer is non-empty. -/
def shouldSendBatch (rs : ReplayState) (elapsed : Int) : Bool :=
  if castToSizeT rs.batch_size ≤ rs.snapshot_count then true
  else if rs.batch_interval_ms ≤ elapsed && decide (0 < rs.snapshot_count) then true
  else false

/-- Whether one 100 ms `FlushThread` iteration
(session_replay_manager.cc lines 394-440) performs an HTTP POST: the
iteration proceeds only while the worker is alive (`should_flush_`) and
the pipeline is active, breaks out if `http_client_` is gone, computes
`should_send`, and on sending moves both buffers into `SendBatch` —
which posts unless both moved buffers are empty (line 472). -/
def iterationPosts (rs : ReplayState) (elapsed : Int) : Bool :=
  rs.should_flush && rs.is_active && rs.http_ok &&
  shouldSendBatch rs elapsed &&
  !(decide (rs.snapshot_count = 0) && decide (rs.meta_event_count = 0))

end SessionReplayManager

namespace CharScan

/-- Lexicographic `≤` on character lists (the byte order `std::string`
comparison uses); formalisation device for the spec's "ties broken by
id". -/
def charListLe : List Char → List Char → Bool
  | [], _ => true
  | _ :: _, [] => false
  | a :: as, b :: bs => if a = b then charListLe as bs else decide (a < b)

end CharScan

namespace StorageManager

/-- The drain order claimed by the spec ("oldest first by insertion
timestamp, ties broken by id"), stated for comparison with what
`GetQueuedEvents` actually produces. -/
def claimedDrainOrder (r s : EventRow) : Bool :=
  decide (r.created_at < s.created_at) ||
  (decide (r.created_at = s.created_at) && CharScan.charListLe r.id.data s.id.data)

end StorageManager

open PostHogSpec StorageManager FeatureFlagsManager CharScan

/-- C9: in every serialised event — regular capture events and replay
snapshot events — the `timestamp` field on the wire is a JSON string
holding the decimal millisecond value (`std::to_string`), never a JSON
number. -/
theorem event_timestamps_are_decimal_strings :
    (∀ e : posthog.PostHogEvent,
      e.to_json.lookup "timestamp" = some (.str (toString e.timestamp))) ∧
    (∀ e : posthog.SessionReplayEvent,
      e.to_json.lookup "timestamp" = some (.str (toString e.timestamp))) :=
  ⟨fun _ => rfl, fun _ => rfl⟩

/-- C5 counterexample: a regular capture event whose `event` name and
`distinct_id` are empty serialises with those fields empty on the wire —
`PostHogEvent::to_json` applies no fallback, so the claim that every
serialised event has non-empty `event` and `distinct_id` (with sentinel
fallbacks) is false. Such an event is reachable: `handle_capture` accepts
an empty `eventName` argument and `handle_identify` an empty `userId`. -/
theorem empty_fields_survive_regular_serialisation :
    (posthog.PostHogEvent.to_json ⟨"", "", 0, .obj []⟩).lookup "event"
        = some (.str "") ∧
    (posthog.PostHogEvent.to_json ⟨"", "", 0, .obj []⟩).lookup "distinct_id"
        = some (.str "") :=
  ⟨rfl, rfl⟩

/-- C5 amended: only replay `$snapshot` events carry the
`"$snapshot"`/`"unknown_user"` fallbacks, so their wire `event` and
`distinct_id` are always non-empty; regular capture events serialise
both fields verbatim. -/
theorem replay_fields_nonempty_regular_verbatim :
    (∀ e : posthog.SessionReplayEvent,
      e.to_json.lookup "event"
          = some (.str (if e.event = "" then "$snapshot" else e.event)) ∧
      (if e.event = "" then "$snapshot" else e.event) ≠ "" ∧
      e.to_json.lookup "distinct_id"
          = some (.str (if e.distinct_id = "" then "unknown_user" else e.distinct_id)) ∧
      (if e.distinct_id = "" then "unknown_user" else e.distinct_id) ≠ "") ∧
    (∀ e : posthog.PostHogEvent,
      e.to_json.lookup "event" = some (.str e.event) ∧
      e.to_json.lookup "distinct_id" = some (.str e.distinct_id)) := by
  refine ⟨fun e => ⟨rfl, ?_, rfl, ?_⟩, fun e => ⟨rfl, rfl⟩⟩
  · by_cases h : e.event = "" <;> simp [h]
  · by_cases h : e.distinct_id = "" <;> simp [h]

/-- C10: `RemoveEvents` with an empty id list returns `false` and leaves
the events table unchanged; with a non-empty id list it reports success
and its single DELETE removes exactly the rows whose id is among the
supplied ids. -/
theorem removeEvents_empty_fails_nonempty_exact :
    (∀ tbl : EventsTable, RemoveEvents tbl [] = (false, tbl)) ∧
    (∀ (tbl : EventsTable) (ids : List String), ids ≠ [] →
      (RemoveEvents tbl ids).1 = true ∧
      ∀ r : EventRow, r ∈ (RemoveEvents tbl ids).2 ↔ r ∈ tbl ∧ r.id ∉ ids) := by
  refine ⟨fun tbl => rfl, fun tbl ids h => ?_⟩
  have hne : ids.isEmpty = false := by
    cases ids with
    | nil => exact absurd rfl h
    | cons a l => rfl
  constructor
  · simp [RemoveEvents, hne]
  · intro r
    simp [RemoveEvents, hne, List.mem_filter]

/-- Witness for C10's theorem at a concrete table and id list. -/
theorem removeEvents_empty_fails_nonempty_exact_witness :
    (RemoveEvents [⟨"a", "j", 1⟩] ["a"]).1 = true ∧
    ((⟨"a", "j", 1⟩ : EventRow) ∈ (RemoveEvents [⟨"a", "j", 1⟩] ["a"]).2 ↔
      (⟨"a", "j", 1⟩ : EventRow) ∈ ([⟨"a", "j", 1⟩] : EventsTable) ∧
      EventRow.id ⟨"a", "j", 1⟩ ∉ ["a"]) := by
  have h := removeEvents_empty_fails_nonempty_exact.2 [⟨"a", "j", 1⟩] ["a"] (by decide)
  exact ⟨h.1, h.2 ⟨"a", "j", 1⟩⟩

/-- C7: the buffered-snapshot base64 round-trip fails for encoder outputs
of length 0 and 1 — `Base64Encode`'s loop bound `data.size() - 2` is a
`size_t` subtraction that wraps around for those sizes, so the loop reads
the vector out of bounds (undefined behaviour, `none` in the model)
instead of emitting the padded encoding; from two bytes up the encoding
is the standard one the claim decodes. -/
theorem base64_undefined_below_two_bytes :
    SessionReplayManager.Base64Encode [] = none ∧
    SessionReplayManager.Base64Encode [65] = none ∧
    SessionReplayManager.Base64Encode [77, 97] = some "TWE=" ∧
    SessionReplayManager.Base64Encode [77, 97, 110] = some "TWFu" := by
  refine ⟨by decide, by decide, by decide, by decide⟩

/-- C1: with the opt-out flag set on an initialized plugin, capture,
identify, screen and group are no-ops (no enqueue, no POST), but the
`alias` method-call branch — which lacks their `initialized`/`opt_out`
guard — still enqueues a `$create_alias` event, growing the queue. -/
theorem optout_alias_still_enqueues :
    (Plugin.handle_capture
        ⟨true, true, 20, 50, ⟨[], "u", "s", [], true⟩⟩
        (some "x") [] 111 "fu" "fs" "ru" 7 ⟨500, "", false⟩
      = (⟨true, true, 20, 50, ⟨[], "u", "s", [], true⟩⟩, 0)) ∧
    (Plugin.handle_identify
        ⟨true, true, 20, 50, ⟨[], "u", "s", [], true⟩⟩ (some "u2") 111 "fs" "ru" 7
      = ⟨true, true, 20, 50, ⟨[], "u", "s", [], true⟩⟩) ∧
    (Plugin.handle_screen
        ⟨true, true, 20, 50, ⟨[], "u", "s", [], true⟩⟩ (some "home") 111 "fu" "fs" "ru" 7
      = ⟨true, true, 20, 50, ⟨[], "u", "s", [], true⟩⟩) ∧
    (Plugin.handle_group
        ⟨true, true, 20, 50, ⟨[], "u", "s", [], true⟩⟩ (some "t") (some "k") 111 "fu" "ru" 7
      = ⟨true, true, 20, 50, ⟨[], "u", "s", [], true⟩⟩) ∧
    (GetQueueSize (Plugin.handle_alias
        ⟨true, true, 20, 50, ⟨[], "u", "s", [], true⟩⟩ (some "n") 111 "fu" "ru" 7).storage.events
      = GetQueueSize (⟨[], "u", "s", [], true⟩ : Plugin.StoreState).events + 1) :=
  ⟨rfl, rfl, rfl, rfl, by decide⟩

/-- C2 counterexample: a successful (2xx, non-empty) decide response whose
body contains no parseable `featureFlags` object does not leave the
previous flag cache intact — `ParseFlagsResponse` clears the cache before
it looks for `featureFlags`, so the pre-existing cache entry is wiped. -/
theorem parse_failure_wipes_cache :
    (ReloadFeatureFlags ⟨[("k".data, "true".data)], []⟩
        ⟨200, "\x7b\x7d", true⟩).2.flags_cache
      ≠ (⟨[("k".data, "true".data)], []⟩ : FlagsState).flags_cache := by
  decide

/-- C2 amended: a transport failure (no success, or an empty body) makes
the reload return `false` with the cache untouched; a successful
non-empty response always replaces the cache wholesale — when its
`featureFlags` value is missing or does not start with `'{'`, the
replacement is the empty map (the cache is cleared, not left intact). -/
theorem reload_transport_failure_keeps_cache :
    ∀ (st : FlagsState) (resp : HttpResponse),
      (resp.success = false ∨ resp.body = "" →
        ReloadFeatureFlags st resp = (false, st)) ∧
      (resp.success = true → resp.body ≠ "" →
        (ExtractJsonValue resp.body.data "featureFlags".data = [] ∨
          (ExtractJsonValue resp.body.data "featureFlags".data).head?
            ≠ some lbraceCh) →
        ReloadFeatureFlags st resp = (true, { st with flags_cache := [] })) := by
  intro st resp
  refine ⟨fun h => ?_, fun hs hb hbad => ?_⟩
  · rcases h with h | h <;> simp [ReloadFeatureFlags, h]
  · have h1 : ReloadFeatureFlags st resp
        = (true, ParseFlagsResponse st resp.body.data) := by
      simp [ReloadFeatureFlags, hs, hb]
    rw [h1]
    simp only [ParseFlagsResponse]
    rcases hbad with h | h
    · simp [h]
    · simp [h, List.isEmpty_iff]

/-- Witness for C2's amended theorem: a failed POST leaves a one-entry
cache in place, and a 2xx `\x7b\x7d` body clears it. -/
theorem reload_transport_failure_keeps_cache_witness :
    (ReloadFeatureFlags ⟨[("k".data, "true".data)], []⟩ ⟨0, "", false⟩
      = (false, ⟨[("k".data, "true".data)], []⟩)) ∧
    (ReloadFeatureFlags ⟨[("k".data, "true".data)], []⟩ ⟨200, "\x7b\x7d", true⟩
      = (true, ⟨[], []⟩)) :=
  ⟨(reload_transport_failure_keeps_cache _ _).1 (Or.inl rfl),
   (reload_transport_failure_keeps_cache _ _).2 rfl (by decide) (by decide)⟩

/-- C6 counterexample: the decide response `\x7b"featureFlags":\x7b"f":"true"\x7d\x7d`
stores the string variant of flag `f` with its quotes stripped, so the
cached value is the bare text `true` and `IsFeatureEnabled` returns
`true` — contradicting the claim that every string-variant flag parsed
from a decide response is reported disabled. -/
theorem string_variant_true_is_enabled :
    IsFeatureEnabled
      (ReloadFeatureFlags ⟨[], []⟩
        ⟨200, "\x7b\"featureFlags\":\x7b\"f\":\"true\"\x7d\x7d", true⟩).2
      "f".data = true := by
  decide

/-- C6 amended: `IsFeatureEnabled` returns `true` exactly when the cache
holds the key with value `true`, `1`, or a quoted literal longer than two
characters; absent keys and every other value give `false`. Because the
parser strips quotes from string variants, a parsed string variant
re-enters this test as bare text and is reported enabled only when that
text is exactly `true` or `1`. -/
theorem isFeatureEnabled_iff :
    ∀ (st : FlagsState) (key : List Char),
      IsFeatureEnabled st key = true ↔
      ∃ v, mapFind st.flags_cache key = some v ∧
        (v = "true".data ∨ v = "1".data ∨
          (v.head? = some quoteCh ∧ 2 < v.length)) := by
  intro st key
  unfold IsFeatureEnabled
  cases h : mapFind st.flags_cache key with
  | none => simp
  | some v => simp [h]; tauto

/-- C8 counterexample: with `batchSize` configured to 0, a worker
iteration with an empty snapshot buffer and one buffered meta event
sends a batch (the `size() >= batch_size_` trigger fires on the empty
buffer and `SendBatch` posts the meta event) — contradicting the claim
that the worker never sends when the snapshot buffer is empty. -/
theorem replay_posts_with_empty_snapshot_buffer :
    SessionReplayManager.iterationPosts ⟨0, 1, true, true, 0, 5000, true⟩ 0 = true
      ∧ (⟨0, 1, true, true, 0, 5000, true⟩ :
          SessionReplayManager.ReplayState).snapshot_count = 0 := by
  exact ⟨by decide, rfl⟩

/-- C8 amended: with a positive configured batch size (the `int` knob is
positive and in range), a worker iteration whose worker is alive and
whose HTTP client is valid posts a batch iff the pipeline is active and
either the snapshot buffer reached `batchSize` or it is non-empty with
the batch interval elapsed; and it never posts while the snapshot buffer
is empty. (With `batchSize ≤ 0` the size trigger fires on an empty
buffer, which is what the counterexample exhibits.) -/
theorem replay_batch_trigger :
    ∀ (rs : SessionReplayManager.ReplayState) (elapsed : Int),
      rs.should_flush = true → rs.http_ok = true →
      1 ≤ rs.batch_size → rs.batch_size < 2 ^ 31 →
      (SessionReplayManager.iterationPosts rs elapsed = true ↔
        (rs.is_active = true ∧
          (rs.batch_size ≤ (rs.snapshot_count : Int) ∨
            (0 < rs.snapshot_count ∧ rs.batch_interval_ms ≤ elapsed)))) ∧
      (rs.snapshot_count = 0 →
        SessionReplayManager.iterationPosts rs elapsed = false) := by
  intro rs elapsed halive hhttp hpos hrange
  have hcast : SessionReplayManager.castToSizeT rs.batch_size
      = rs.batch_size.toNat := by
    unfold SessionReplayManager.castToSizeT
    rw [Int.emod_eq_of_lt (by omega) (by omega)]
  have hsize : (SessionReplayManager.castToSizeT rs.batch_size ≤ rs.snapshot_count)
      ↔ rs.batch_size ≤ (rs.snapshot_count : Int) := by
    rw [hcast]; exact Int.toNat_le
  have hsend : (SessionReplayManager.shouldSendBatch rs elapsed = true) ↔
      (rs.batch_size ≤ (rs.snapshot_count : Int) ∨
        (0 < rs.snapshot_count ∧ rs.batch_interval_ms ≤ elapsed)) := by
    unfold SessionReplayManager.shouldSendBatch
    by_cases h1 : SessionReplayManager.castToSizeT rs.batch_size ≤ rs.snapshot_count
    · simp [h1, hsize.mp h1]
    · have h1' : ¬ rs.batch_size ≤ (rs.snapshot_count : Int) := fun hc =>
        h1 (hsize.mpr hc)
      simp [h1, h1']
      exact and_comm
  have hnonempty : SessionReplayManager.shouldSendBatch rs elapsed = true →
      0 < rs.snapshot_count := by
    intro h
    rcases hsend.mp h with h | h
    · have : 1 ≤ (rs.snapshot_count : Int) := le_trans hpos h
      omega
    · exact h.1
  constructor
  · constructor
    · intro h
      unfold SessionReplayManager.iterationPosts at h
      simp only [Bool.and_eq_true] at h
      exact ⟨h.1.1.1.2, hsend.mp h.1.2⟩
    · intro ⟨hact, hcond⟩
      have hs : SessionReplayManager.shouldSendBatch rs elapsed = true :=
        hsend.mpr hcond
      have hc : 0 < rs.snapshot_count := hnonempty hs
      unfold SessionReplayManager.iterationPosts
      simp [halive, hhttp, hact, hs, Nat.pos_iff_ne_zero.mp hc]
  · intro hzero
    unfold SessionReplayManager.iterationPosts
    have hs : SessionReplayManager.shouldSendBatch rs elapsed = false := by
      cases h : SessionReplayManager.shouldSendBatch rs elapsed with
      | false => rfl
      | true => exact absurd (hnonempty h) (by omega)
    simp [hs]

/-- Witness for C8's amended theorem: one buffered snapshot, batch size
10, 6000 ms elapsed against a 5000 ms interval. -/
theorem replay_batch_trigger_witness :
    (SessionReplayManager.iterationPosts ⟨1, 0, true, true, 10, 5000, true⟩ 6000 = true ↔
      ((⟨1, 0, true, true, 10, 5000, true⟩ :
          SessionReplayManager.ReplayState).is_active = true ∧
        ((10 : Int) ≤ ((1 : Nat) : Int) ∨
          (0 < 1 ∧ (5000 : Int) ≤ 6000)))) ∧
    ((1 : Nat) = 0 →
      SessionReplayManager.iterationPosts ⟨1, 0, true, true, 10, 5000, true⟩ 6000 = false) :=
  replay_batch_trigger ⟨1, 0, true, true, 10, 5000, true⟩ 6000 rfl rfl
    (by decide) (by decide)

/-- C4 counterexample: two rows enqueued in the same epoch second with
ids `b` then `a` are drained in insertion order `b, a` — `GetQueuedEvents`
orders by `created_at` alone, so the drained sequence is not tie-broken
by id as the claim states. -/
theorem drain_ties_not_id_ordered :
    ¬ List.Pairwise (fun r s => claimedDrainOrder r s = true)
        (GetQueuedEventsRows [⟨"b", "x", 5⟩, ⟨"a", "y", 5⟩] 2) := by
  intro hp
  have h : GetQueuedEventsRows [⟨"b", "x", 5⟩, ⟨"a", "y", 5⟩] 2
      = [⟨"b", "x", 5⟩, ⟨"a", "y", 5⟩] := rfl
  rw [h] at hp
  have hrel := (List.pairwise_cons.mp hp).1 _ (List.mem_singleton.2 rfl)
  exact absurd hrel (by decide)

/-- C4 amended: `drain(limit)` returns at most `limit` rows ordered
oldest-first by insertion timestamp; the order among rows with equal
timestamps is whatever the unqualified `ORDER BY created_at` produces
(insertion order in the model), not id order. -/
theorem drain_limit_and_sorted :
    ∀ (tbl : EventsTable) (n : Nat),
      (GetQueuedEventsRows tbl n).length ≤ n ∧
      List.Sorted (fun r s : EventRow => r.created_at ≤ s.created_at)
        (GetQueuedEventsRows tbl n) := by
  intro tbl n
  constructor
  · exact List.length_take_le n _
  · have hs : List.Sorted (fun r s : EventRow => r.created_at ≤ s.created_at)
        (orderByCreatedAt tbl) := by
      haveI ht : IsTotal EventRow (fun r s => r.created_at ≤ s.created_at) :=
        ⟨fun a b => le_total a.created_at b.created_at⟩
      haveI htr : IsTrans EventRow (fun r s => r.created_at ≤ s.created_at) :=
        ⟨fun _ _ _ hab hbc => le_trans hab hbc⟩
      exact List.sorted_insertionSort _ tbl
    exact List.Pairwise.sublist (List.take_sublist n _) hs

/-- Splitting a drained row string at its first pipe recovers the id and
json whenever the id contains no pipe (UUIDs are hex-and-dash). -/
theorem splitFirstPipe_append (a b : List Char) (h : '|' ∉ a) :
    Plugin.splitFirstPipe (a ++ '|' :: b) = some (a, b) := by
  induction a with
  | nil => simp [Plugin.splitFirstPipe]
  | cons c cs ih =>
    have hc : ¬ c = '|' := fun hc => h (by simp [hc])
    have hcs : '|' ∉ cs := fun hm => h (List.mem_cons_of_mem _ hm)
    simp [Plugin.splitFirstPipe, hc, ih hcs]

/-- The id/json collection loop applied to encoded rows with pipe-free
ids yields exactly the drained ids and jsons, in order. -/
theorem collectIdsJsons_map_encodeRow (rows : List StorageManager.EventRow)
    (h : ∀ r ∈ rows, '|' ∉ r.id.data) :
    Plugin.collectIdsJsons (rows.map StorageManager.encodeRow)
      = (rows.map (fun r => r.id.data), rows.map (fun r => r.event_json.data)) := by
  induction rows with
  | nil => rfl
  | cons r rest ih =>
    have hr : '|' ∉ r.id.data := h r (List.mem_cons_self _ _)
    have hrest := ih (fun x hx => h x (List.mem_cons_of_mem _ hx))
    simp [Plugin.collectIdsJsons, hrest, StorageManager.encodeRow,
      splitFirstPipe_append _ _ hr]

/-- C3: in every flush cycle, transport success is exactly an HTTP status
in [200,300) (transport errors report failure), and the drained rows are
removed from the store iff the response reports success — on any failed
POST (in particular every 5xx) the table is unchanged, so no event is
ever removed under a server that always fails. -/
theorem flush_removes_drained_iff_2xx :
    ∀ (tbl : StorageManager.EventsTable) (maxB : Nat) (curl_ok : Bool)
      (status : Int) (body : String),
      (∀ r ∈ tbl, '|' ∉ r.id.data) →
      ((HttpClient.PerformPost curl_ok status body).success
          = (curl_ok && decide (200 ≤ status) && decide (status < 300))) ∧
      (∀ resp : HttpResponse,
        Plugin.flushCycle tbl maxB resp =
          if resp.success = true then
            tbl.filter (fun r =>
              !(decide (r.id ∈ (StorageManager.GetQueuedEventsRows tbl maxB).map
                  StorageManager.EventRow.id)))
          else tbl) ∧
      (500 ≤ status →
        Plugin.flushCycle tbl maxB (HttpClient.PerformPost curl_ok status body)
          = tbl) := by
  intro tbl maxB curl_ok status body hpipe
  have hsubset : ∀ r ∈ StorageManager.GetQueuedEventsRows tbl maxB,
      '|' ∉ r.id.data := by
    intro r hr
    exact hpipe r ((List.perm_insertionSort _ tbl).subset
      (List.take_subset _ _ hr))
  have hperform : (HttpClient.PerformPost curl_ok status body).success
      = (curl_ok && decide (200 ≤ status) && decide (status < 300)) := by
    cases curl_ok <;> simp [HttpClient.PerformPost]
  have hmain : ∀ resp : HttpResponse,
      Plugin.flushCycle tbl maxB resp =
        if resp.success = true then
          tbl.filter (fun r =>
            !(decide (r.id ∈ (StorageManager.GetQueuedEventsRows tbl maxB).map
                StorageManager.EventRow.id)))
        else tbl := by
    intro resp
    have hmapmk : ∀ l : List StorageManager.EventRow,
        (l.map (fun r => r.id.data)).map String.mk
          = l.map StorageManager.EventRow.id := by
      intro l
      simp only [List.map_map]
      rfl
    simp only [Plugin.flushCycle, StorageManager.GetQueuedEvents,
      collectIdsJsons_map_encodeRow _ hsubset, hmapmk]
    cases hrows : StorageManager.GetQueuedEventsRows tbl maxB with
    | nil => simp
    | cons r0 rest =>
      cases hsucc : resp.success with
      | false => simp
      | true => simp [StorageManager.RemoveEvents]
  refine ⟨hperform, hmain, fun h5 => ?_⟩
  rw [hmain]
  have : (HttpClient.PerformPost curl_ok status body).success = false := by
    rw [hperform]
    have : decide (status < 300) = false := by
      simp
      omega
    simp [this]
  simp [this]

/-- Witness for C3's theorem at a one-row table with a 204 response. -/
theorem flush_removes_drained_iff_2xx_witness :
    ((HttpClient.PerformPost true 204 "").success
        = (true && decide ((200 : Int) ≤ 204) && decide ((204 : Int) < 300))) ∧
    (∀ resp : HttpResponse,
      Plugin.flushCycle [⟨"a", "j", 1⟩] 50 resp =
        if resp.success = true then
          ([⟨"a", "j", 1⟩] : StorageManager.EventsTable).filter (fun r =>
            !(decide (r.id ∈ (StorageManager.GetQueuedEventsRows
                [⟨"a", "j", 1⟩] 50).map StorageManager.EventRow.id)))
        else [⟨"a", "j", 1⟩]) ∧
    ((500 : Int) ≤ 204 →
      Plugin.flushCycle [⟨"a", "j", 1⟩] 50 (HttpClient.PerformPost true 204 "")
        = [⟨"a", "j", 1⟩]) :=
  flush_removes_drained_iff_2xx [⟨"a", "j", 1⟩] 50 true 204 "" (by decide)
